import Mathlib

/-!
Verification of the CineGen AI movie-generation front end.

The development shallowly embeds the two source modules that carry the
program logic:

* the service layer (`generateScript`, `generateVideo`, `generateSpeech`
  from services/geminiService.ts), modelled as pure functions over an
  explicit backend-response record, with failures as `Except String`;
* the `MovieCreator` component (components/MovieCreator.tsx): its React
  state is a `ComponentState` record, `generateMovie` is a state
  transformer that also emits the observable effect trace of the run
  (object-URL revocations and backend calls), and the playback helpers
  `stopAudio` / `toggleMute` are state transformers.

JavaScript string primitives used by the code (`trim`, `includes`) are
modelled over `List Char`.
-/

namespace CineGen

/-- Model of JS `String.prototype.trim`: drop whitespace from both ends. -/
def jsTrim (s : String) : String :=
  ⟨((s.data.dropWhile Char.isWhitespace).reverse.dropWhile Char.isWhitespace).reverse⟩

/-- Whether `pat` occurs at the start of `l` (helper for substring search). -/
def charsStartWith : List Char → List Char → Bool
  | [], _ => true
  | _ :: _, [] => false
  | p :: ps, c :: cs => p == c && charsStartWith ps cs

/-- Whether `pat` occurs contiguously anywhere in the character list. -/
def charsInclude (pat : List Char) : List Char → Bool
  | [] => charsStartWith pat []
  | c :: cs => charsStartWith pat (c :: cs) || charsInclude pat cs

/-- Model of JS `String.prototype.includes`. -/
def jsIncludes (s pat : String) : Bool :=
  charsInclude pat.data s.data

/-! Data model, from types.ts. -/

/-- AspectRatio enum from types.ts. -/
inductive AspectRatio
  | landscape
  | portrait
deriving DecidableEq

/-- VoiceName enum from types.ts. -/
inductive VoiceName
  | kore
  | puck
  | charon
  | fenrir
  | zephyr
deriving DecidableEq

/-- The `step` tag of GenerationStatus from types.ts. -/
inductive Step
  | idle
  | script
  | video
  | audio
  | complete
  | error
deriving DecidableEq

/-- GenerationStatus from types.ts: a step plus optional message / error. -/
structure GenerationStatus where
  step : Step
  message : Option String := none
  error : Option String := none
deriving DecidableEq

/-- A decoded Web-Audio buffer (channel count, sample rate, sample frames). -/
structure AudioBuffer where
  numberOfChannels : Nat
  sampleRate : Nat
  length : Nat
deriving DecidableEq

/-- MovieData from types.ts. The TS type allows `audioBuffer: AudioBuffer | null`,
so the field is an `Option`. -/
structure MovieData where
  id : String
  script : String
  videoUrl : String
  audioBuffer : Option AudioBuffer
  aspectRatio : AspectRatio
deriving DecidableEq

/-! Service layer, from services/geminiService.ts. -/

/-- The part of a Gemini generateContent response that generateScript reads. -/
structure GenerateContentResponse where
  text : Option String
deriving DecidableEq

/-- The result text of generateScript on a successful generateContent call:
`response.text?.trim() || "Enjoy this scene."`. -/
def scriptText (resp : GenerateContentResponse) : String :=
  match resp.text with
  | none => "Enjoy this scene."
  | some t => if jsTrim t = "" then "Enjoy this scene." else jsTrim t

/-- generateScript: the generateContent call either fails or yields a response,
whose text is trimmed and defaulted. -/
def generateScript (call : Except String GenerateContentResponse) :
    Except String String :=
  call.map scriptText

/-- Backend-visible outcome of the Veo polling loop and the download fetch,
read by generateVideo. -/
structure VideoBackend where
  videoUri : Option String
  fetchOk : Bool
  statusText : String
  blobUrl : String
deriving DecidableEq

/-- generateVideo after the polling loop: throw when no video URI was produced,
throw when the download fetch fails, otherwise return the object URL created
for the downloaded blob. -/
def generateVideo (b : VideoBackend) : Except String String :=
  match b.videoUri with
  | none => .error "Failed to generate video URI."
  | some _ =>
    if b.fetchOk then .ok b.blobUrl
    else .error ("Failed to download video: " ++ b.statusText)

/-- generateSpeech: throw when the TTS response carries no inline audio data,
otherwise decode it (decoding itself may fail). -/
def generateSpeech (base64Audio : Option String)
    (decodeResult : Except String AudioBuffer) : Except String AudioBuffer :=
  match base64Audio with
  | none => .error "No audio data returned from TTS model."
  | some _ => decodeResult

/-! The MovieCreator component, from components/MovieCreator.tsx. -/

/-- A Web-Audio AudioBufferSourceNode as the component tracks it: whether
`start` has been called and whether `stop` has completed. -/
structure AudioBufferSourceNode where
  started : Bool
  stopped : Bool
deriving DecidableEq

/-- The browser primitive `AudioScheduledSourceNode.stop`: it rejects a stop
on a node that was never started and may reject a double stop. -/
def sourceStop (s : AudioBufferSourceNode) :
    Except String AudioBufferSourceNode :=
  if !s.started || s.stopped then .error "InvalidStateError"
  else .ok { s with stopped := true }

/-- The React state of MovieCreator, together with the refs the playback
logic reads (`audioSourceRef`, the current value of the gain node when one
exists, and the muted flag of the video element when the element is mounted). -/
structure ComponentState where
  idea : String
  aspectRatio : AspectRatio
  voice : VoiceName
  status : GenerationStatus
  movie : Option MovieData
  apiKeyReady : Bool
  isPlaying : Bool
  isMuted : Bool
  audioSourceRef : Option AudioBufferSourceNode
  gainNodeValue : Option Nat
  videoMuted : Option Bool
deriving DecidableEq

/-- Externally observable effects of one generateMovie run: object-URL
revocations and the three backend calls. -/
inductive Effect
  | revokeObjectURL (url : String)
  | callGenerateScript (idea : String)
  | callGenerateVideo (idea : String) (aspectRatio : AspectRatio)
  | callGenerateSpeech (text : String) (voice : VoiceName)
deriving DecidableEq

/-- The backend responses one generateMovie run consumes, plus `Date.now()`. -/
structure Backend where
  scriptCall : Except String GenerateContentResponse
  video : VideoBackend
  speechBase64 : Option String
  speechDecode : Except String AudioBuffer
  now : Nat

/-- stopAudio: when a source is tracked, call the primitive `stop` inside
try/catch (the rejection is swallowed) and clear the ref. The function can
never propagate an error, which the `Except` return type makes visible. -/
def stopAudio (st : ComponentState) : Except String ComponentState :=
  match st.audioSourceRef with
  | none => .ok st
  | some src =>
    match sourceStop src with
    | .ok _ => .ok { st with audioSourceRef := none }
    | .error _ => .ok { st with audioSourceRef := none }

/-- Unwrapped stopAudio for sequencing inside generateMovie (the error case
is unreachable, as `stopAudio` always returns `.ok`). -/
def stopAudioRun (st : ComponentState) : ComponentState :=
  match stopAudio st with
  | .ok st2 => st2
  | .error _ => st

/-- The authorization-marker test in the catch block of generateMovie: the
message includes the not-found marker text, or includes 403, or includes
401. -/
def isAuthError (msg : String) : Bool :=
  jsIncludes msg "Requested entity was not found" ||
  jsIncludes msg "403" || jsIncludes msg "401"

/-- The catch block of generateMovie: default an empty (falsy) message,
then either surface the API-key error and revoke `apiKeyReady`, or surface
the message itself. -/
def classifyError (errMessage : String) (st : ComponentState) :
    ComponentState :=
  let msg := if errMessage = "" then "An unexpected error occurred."
             else errMessage
  if isAuthError msg then
    { st with
      status := { step := .error, message := none,
                  error := some "API Key Error. Please re-select your paid API key." },
      apiKeyReady := false }
  else
    { st with
      status := { step := .error, message := none, error := some msg } }

/-- generateMovie: guard on a blank idea, release a previous movie, reset
playback, then script generation followed by the parallel video and speech
requests joined by Promise.all; on success assemble the MovieData, on any
failure run the catch block. Returns the new state and the effect trace. -/
def generateMovie (st : ComponentState) (be : Backend) :
    ComponentState × List Effect :=
  if jsTrim st.idea = "" then (st, [])
  else
    let (st1, effs0) :=
      match st.movie with
      | some m => ({ st with movie := none }, [Effect.revokeObjectURL m.videoUrl])
      | none => (st, [])
    let st2 := stopAudioRun { st1 with isPlaying := false }
    let st3 := { st2 with
      status := { step := .script, message := some "Writing the screenplay...",
                  error := none } }
    let effs1 := effs0 ++ [Effect.callGenerateScript st.idea]
    match generateScript be.scriptCall with
    | .error e => (classifyError e st3, effs1)
    | .ok script =>
      let st4 := { st3 with
        status := { step := .video,
                    message := some "Filming on location (Veo) & Recording voiceover...",
                    error := none } }
      let effs2 := effs1 ++ [Effect.callGenerateVideo st.idea st.aspectRatio,
                             Effect.callGenerateSpeech script st.voice]
      match generateVideo be.video,
            generateSpeech be.speechBase64 be.speechDecode with
      | .ok videoUrl, .ok audioBuffer =>
        ({ st4 with
            movie := some { id := toString be.now, script := script,
                            videoUrl := videoUrl,
                            audioBuffer := some audioBuffer,
                            aspectRatio := st.aspectRatio },
            status := { step := .complete, message := some "Movie ready!",
                        error := none } }, effs2)
      | .error e, _ => (classifyError e st4, effs2)
      | .ok _, .error e => (classifyError e st4, effs2)

/-- toggleMute: flip `isMuted`, write the matching gain value to the live
gain node when one exists, and mirror the new flag onto the video element. -/
def toggleMute (st : ComponentState) : ComponentState :=
  let newMuted := !st.isMuted
  { st with
    isMuted := newMuted,
    gainNodeValue :=
      match st.gainNodeValue with
      | none => none
      | some _ => some (if newMuted then 0 else 1),
    videoMuted :=
      match st.videoMuted with
      | none => none
      | some _ => some newMuted }

/-- The disabled condition of the Action! button: no key, falsy (empty) idea, or
a run already in the script or video step. -/
def buttonDisabled (st : ComponentState) : Bool :=
  !st.apiKeyReady || st.idea == "" ||
  st.status.step == Step.script || st.status.step == Step.video

/-- Clicking the Action! button: a disabled button fires nothing, otherwise
generateMovie runs. -/
def clickGenerate (st : ComponentState) (be : Backend) :
    ComponentState × List Effect :=
  if buttonDisabled st then (st, []) else generateMovie st be

/-! Concrete fixtures used to instantiate the theorems. -/

/-- A baseline concrete component state: a fresh session with a usable key
and a non-blank idea. -/
def sampleState : ComponentState :=
  { idea := "a cat on a skateboard", aspectRatio := .landscape,
    voice := .kore, status := { step := .idle }, movie := none,
    apiKeyReady := true, isPlaying := false, isMuted := false,
    audioSourceRef := none, gainNodeValue := none, videoMuted := none }

/-- A concrete previously generated movie. -/
def sampleMovie : MovieData :=
  { id := "1", script := "An old scene.", videoUrl := "blob:old-video",
    audioBuffer := some { numberOfChannels := 1, sampleRate := 24000, length := 240 },
    aspectRatio := .landscape }

/-- A backend in which all three calls succeed. -/
def sampleBackend : Backend :=
  { scriptCall := .ok { text := some "A cat cruises down the boardwalk, tail high." },
    video := { videoUri := some "https:video-uri", fetchOk := true,
               statusText := "OK", blobUrl := "blob:new-video" },
    speechBase64 := some "UklGRg",
    speechDecode := .ok { numberOfChannels := 1, sampleRate := 24000, length := 120000 },
    now := 1700000000000 }

/-! Helper lemmas. -/

/-- Dropping a satisfied predicate from a list of satisfying elements gives
the empty list. -/
theorem dropWhile_whitespace_nil (l : List Char)
    (h : ∀ c ∈ l, c.isWhitespace) :
    l.dropWhile Char.isWhitespace = [] := by
  induction l with
  | nil => rfl
  | cons a t ih =>
    have ha : Char.isWhitespace a = true := h a (List.mem_cons_self a t)
    rw [List.dropWhile_cons_of_pos ha]
    exact ih fun c hc => h c (List.mem_cons_of_mem a hc)

/-- A string all of whose characters are whitespace trims to the empty
string. -/
theorem jsTrim_eq_empty (s : String) (h : ∀ c ∈ s.data, c.isWhitespace) :
    jsTrim s = "" := by
  unfold jsTrim
  rw [dropWhile_whitespace_nil _ h]
  rfl

/-- stopAudio always returns normally, with the tracked handle cleared and
every other field untouched. -/
theorem stopAudio_eq (st : ComponentState) :
    stopAudio st = .ok { st with audioSourceRef := none } := by
  cases st with
  | mk idea ar v stt mv akr ip im asrc g vm =>
    cases asrc with
    | none => rfl
    | some src =>
      unfold stopAudio
      cases h : sourceStop src <;> simp [h]

/-- Unwrapped form of `stopAudio_eq`. -/
theorem stopAudioRun_eq (st : ComponentState) :
    stopAudioRun st = { st with audioSourceRef := none } := by
  unfold stopAudioRun
  rw [stopAudio_eq]

/-- The catch block leaves the movie state untouched. -/
theorem classifyError_movie (e : String) (st : ComponentState) :
    (classifyError e st).movie = st.movie := by
  unfold classifyError
  cases h : isAuthError (if e = "" then "An unexpected error occurred." else e) <;>
    simp [h]

/-- The catch block always lands in the error step. -/
theorem classifyError_step (e : String) (st : ComponentState) :
    (classifyError e st).status.step = Step.error := by
  unfold classifyError
  cases h : isAuthError (if e = "" then "An unexpected error occurred." else e) <;>
    simp [h]

/-- The catch block always records some error message. -/
theorem classifyError_error_isSome (e : String) (st : ComponentState) :
    ((classifyError e st).status.error).isSome = true := by
  unfold classifyError
  cases h : isAuthError (if e = "" then "An unexpected error occurred." else e) <;>
    simp [h]

/-- The catch block does not touch `isPlaying`. -/
theorem classifyError_isPlaying (e : String) (st : ComponentState) :
    (classifyError e st).isPlaying = st.isPlaying := by
  unfold classifyError
  cases h : isAuthError (if e = "" then "An unexpected error occurred." else e) <;>
    simp [h]

/-- The catch block does not touch `isMuted`. -/
theorem classifyError_isMuted (e : String) (st : ComponentState) :
    (classifyError e st).isMuted = st.isMuted := by
  unfold classifyError
  cases h : isAuthError (if e = "" then "An unexpected error occurred." else e) <;>
    simp [h]

/-- The catch block does not touch the tracked audio source. -/
theorem classifyError_audioSourceRef (e : String) (st : ComponentState) :
    (classifyError e st).audioSourceRef = st.audioSourceRef := by
  unfold classifyError
  cases h : isAuthError (if e = "" then "An unexpected error occurred." else e) <;>
    simp [h]

/-! Claim theorems. -/

/-- C6: for an idea string that is empty or consists only of whitespace,
invoking generation performs no state transition (the state is returned
unchanged) and invokes no backend call (the effect trace is empty). -/
theorem c6_blank_idea_noop (st : ComponentState) (be : Backend)
    (h : ∀ c ∈ st.idea.data, c.isWhitespace) :
    generateMovie st be = (st, []) := by
  unfold generateMovie
  rw [if_pos (jsTrim_eq_empty st.idea h)]

/-- Witness for C6 at a three-space idea. -/
theorem c6_blank_idea_noop_witness :
    generateMovie { sampleState with idea := "   " } sampleBackend =
      ({ sampleState with idea := "   " }, []) :=
  c6_blank_idea_noop _ _ (by decide)

/-- C7: stopping a playback handle that was never started (or was already
stopped) raises no error — the primitive rejection is absorbed — and the
only state change is clearing the tracked handle. -/
theorem c7_stop_absorbed (st : ComponentState)
    (h : st.audioSourceRef = none ∨
         ∃ src, st.audioSourceRef = some src ∧
           (src.started = false ∨ src.stopped = true)) :
    stopAudio st = .ok { st with audioSourceRef := none } ∧
    (∀ src, st.audioSourceRef = some src → ∃ e, sourceStop src = .error e) := by
  refine ⟨stopAudio_eq st, ?_⟩
  intro src hsrc
  rcases h with h | ⟨src2, hs2, h2⟩
  · rw [h] at hsrc
    cases hsrc
  · rw [hs2] at hsrc
    have he : src2 = src := Option.some.inj hsrc
    subst he
    refine ⟨"InvalidStateError", ?_⟩
    unfold sourceStop
    rcases h2 with h2 | h2 <;> simp [h2]

/-- Witness for C7 at a never-started source node. -/
theorem c7_stop_absorbed_witness :
    stopAudio { sampleState with
        audioSourceRef := some { started := false, stopped := false } } =
      .ok { { sampleState with
        audioSourceRef := some { started := false, stopped := false } } with
        audioSourceRef := none } :=
  (c7_stop_absorbed _
    (Or.inr ⟨{ started := false, stopped := false }, rfl, Or.inl rfl⟩)).1

/-- C8: toggling mute flips `isMuted`, drives a live gain node to 0 exactly
when the new state is muted and to 1 otherwise, leaves the audio source
untouched (no stop, no recreation), and mirrors the new flag onto a mounted
video element. -/
theorem c8_toggle_mute (st : ComponentState) :
    (toggleMute st).isMuted = !st.isMuted ∧
    (st.gainNodeValue.isSome →
      (toggleMute st).gainNodeValue =
        some (if (toggleMute st).isMuted then 0 else 1)) ∧
    (toggleMute st).audioSourceRef = st.audioSourceRef ∧
    (st.videoMuted.isSome →
      (toggleMute st).videoMuted = some ((toggleMute st).isMuted)) := by
  rcases hg : st.gainNodeValue with _ | g <;>
    rcases hv : st.videoMuted with _ | b <;>
      simp [toggleMute, hg, hv]

/-- A state with a live gain node and a mounted video element. -/
def playingState : ComponentState :=
  { sampleState with gainNodeValue := some 1, videoMuted := some false }

/-- Witness for C8 at a state with a live gain node and a mounted video. -/
theorem c8_toggle_mute_witness :
    (toggleMute playingState).gainNodeValue =
      some (if (toggleMute playingState).isMuted then 0 else 1) ∧
    (toggleMute playingState).videoMuted =
      some ((toggleMute playingState).isMuted) :=
  ⟨(c8_toggle_mute playingState).2.1 (by decide),
   (c8_toggle_mute playingState).2.2.2 (by decide)⟩

/-- C9: with a non-empty idea, clicking generate while the status step is
already script or video is a no-op — the button is disabled, so no state
changes and no pipeline starts. -/
theorem c9_guard_noop (st : ComponentState) (be : Backend)
    (hidea : st.idea ≠ "")
    (hstep : st.status.step = Step.script ∨ st.status.step = Step.video) :
    clickGenerate st be = (st, []) := by
  unfold clickGenerate buttonDisabled
  rcases hstep with h | h <;> rw [h] <;> simp

/-- Witness for C9 at a state in the script step. -/
theorem c9_guard_noop_witness :
    clickGenerate { sampleState with status := { step := Step.script } }
        sampleBackend =
      ({ sampleState with status := { step := Step.script } }, []) :=
  c9_guard_noop _ _ (by decide) (Or.inl rfl)

/-- generateScript on a failed generateContent call propagates the error. -/
theorem generateScript_error (e : String) :
    generateScript (.error e) = .error e := rfl

/-- generateScript on a successful call returns the defaulted trimmed text. -/
theorem generateScript_ok (resp : GenerateContentResponse) :
    generateScript (.ok resp) = .ok (scriptText resp) := rfl

/-- A successful run assembles exactly the Movie built from the three
backend results. -/
theorem generateMovie_success_movie (st : ComponentState) (be : Backend)
    (hidea : jsTrim st.idea ≠ "") (resp : GenerateContentResponse)
    (u : String) (b : AudioBuffer)
    (hsc : be.scriptCall = .ok resp)
    (hv : generateVideo be.video = .ok u)
    (hs : generateSpeech be.speechBase64 be.speechDecode = .ok b) :
    (generateMovie st be).1.movie =
      some { id := toString be.now, script := scriptText resp,
             videoUrl := u, audioBuffer := some b,
             aspectRatio := st.aspectRatio } := by
  rcases hmv : st.movie with _ | m0 <;>
    simp [generateMovie, hidea, generateScript_ok, hsc, hv, hs, hmv,
          stopAudioRun_eq]

/-- C10: script generation never yields an empty script — a missing, empty,
or whitespace-only response text becomes the literal fallback text — and
hence any Movie assembled by a generation run has a non-empty script. -/
theorem c10_script_nonempty :
    (∀ resp : GenerateContentResponse,
      scriptText resp ≠ "" ∧
      ((resp.text = none ∨
        ∃ t, resp.text = some t ∧ ∀ c ∈ t.data, c.isWhitespace) →
        scriptText resp = "Enjoy this scene.")) ∧
    (∀ (st : ComponentState) (be : Backend) (m : MovieData),
      jsTrim st.idea ≠ "" → (generateMovie st be).1.movie = some m →
      m.script ≠ "") := by
  have h1 : ∀ resp : GenerateContentResponse, scriptText resp ≠ "" := by
    intro resp
    obtain ⟨t0⟩ := resp
    rcases t0 with _ | t
    · decide
    · show (if jsTrim t = "" then "Enjoy this scene." else jsTrim t) ≠ ""
      split
      · decide
      · assumption
  have h2 : ∀ resp : GenerateContentResponse,
      (resp.text = none ∨
        ∃ t, resp.text = some t ∧ ∀ c ∈ t.data, c.isWhitespace) →
      scriptText resp = "Enjoy this scene." := by
    intro resp h
    obtain ⟨t0⟩ := resp
    rcases t0 with _ | t
    · rfl
    · rcases h with h | ⟨t2, ht2, hw⟩
      · exact absurd h (by simp)
      · have he : some t = some t2 := ht2
        have ht : t2 = t := (Option.some.inj he).symm
        subst ht
        show (if jsTrim t2 = "" then "Enjoy this scene." else jsTrim t2) =
          "Enjoy this scene."
        rw [if_pos (jsTrim_eq_empty t2 hw)]
  refine ⟨fun resp => ⟨h1 resp, h2 resp⟩, ?_⟩
  intro st be m hidea hm
  rcases hsc : be.scriptCall with e | resp
  · rcases hmv : st.movie with _ | m0 <;>
      simp [generateMovie, hidea, generateScript_error, hsc, hmv,
            stopAudioRun_eq, classifyError_movie] at hm
  · rcases hv : generateVideo be.video with ev | u
    · rcases hmv : st.movie with _ | m0 <;>
        simp [generateMovie, hidea, generateScript_ok, hsc, hv, hmv,
              stopAudioRun_eq, classifyError_movie] at hm
    · rcases hs : generateSpeech be.speechBase64 be.speechDecode with es | b
      · rcases hmv : st.movie with _ | m0 <;>
          simp [generateMovie, hidea, generateScript_ok, hsc, hv, hs, hmv,
                stopAudioRun_eq, classifyError_movie] at hm
      · rw [generateMovie_success_movie st be hidea resp u b hsc hv hs] at hm
        rw [← Option.some.inj hm]
        exact h1 resp

/-- Witness for C10 instantiating its quantified parts: a whitespace-only
response text yields the fallback, and the successful sample run can only
assemble a movie with a non-empty script. -/
theorem c10_script_nonempty_witness :
    scriptText { text := some "   " } = "Enjoy this scene." ∧
    (∀ m, (generateMovie sampleState sampleBackend).1.movie = some m →
      m.script ≠ "") := by
  constructor
  · exact (c10_script_nonempty.1 { text := some "   " }).2
      (Or.inr ⟨"   ", rfl, by decide⟩)
  · intro m hm
    exact c10_script_nonempty.2 sampleState sampleBackend m (by decide) hm

/-- C1: if the video request or the speech request of a pipeline run fails,
no Movie is constructed (the movie state is null afterwards) and the status
transitions to the error step with a single message; a Movie is assembled
only when both requests succeed. -/
theorem c1_all_or_nothing_join (st : ComponentState) (be : Backend)
    (hidea : jsTrim st.idea ≠ "") :
    (((∃ e, generateVideo be.video = .error e) ∨
      (∃ e, generateSpeech be.speechBase64 be.speechDecode = .error e)) →
      (generateMovie st be).1.movie = none ∧
      (generateMovie st be).1.status.step = Step.error ∧
      ((generateMovie st be).1.status.error).isSome = true) ∧
    (∀ m, (generateMovie st be).1.movie = some m →
      (∃ u, generateVideo be.video = .ok u) ∧
      (∃ b, generateSpeech be.speechBase64 be.speechDecode = .ok b)) := by
  rcases hsc : be.scriptCall with e | resp
  · constructor
    · intro _
      rcases hmv : st.movie with _ | m0 <;>
        simp [generateMovie, hidea, generateScript_error, hsc, hmv,
              stopAudioRun_eq, classifyError_movie, classifyError_step,
              classifyError_error_isSome]
    · intro m hm
      rcases hmv : st.movie with _ | m0 <;>
        simp [generateMovie, hidea, generateScript_error, hsc, hmv,
              stopAudioRun_eq, classifyError_movie] at hm
  · rcases hv : generateVideo be.video with ev | u
    · constructor
      · intro _
        rcases hs : generateSpeech be.speechBase64 be.speechDecode with es | b <;>
          rcases hmv : st.movie with _ | m0 <;>
            simp [generateMovie, hidea, generateScript_ok, hsc, hv, hs, hmv,
                  stopAudioRun_eq, classifyError_movie, classifyError_step,
                  classifyError_error_isSome]
      · intro m hm
        rcases hs : generateSpeech be.speechBase64 be.speechDecode with es | b <;>
          rcases hmv : st.movie with _ | m0 <;>
            simp [generateMovie, hidea, generateScript_ok, hsc, hv, hs, hmv,
                  stopAudioRun_eq, classifyError_movie] at hm
    · rcases hs : generateSpeech be.speechBase64 be.speechDecode with es | b
      · constructor
        · intro _
          rcases hmv : st.movie with _ | m0 <;>
            simp [generateMovie, hidea, generateScript_ok, hsc, hv, hs, hmv,
                  stopAudioRun_eq, classifyError_movie, classifyError_step,
                  classifyError_error_isSome]
        · intro m hm
          rcases hmv : st.movie with _ | m0 <;>
            simp [generateMovie, hidea, generateScript_ok, hsc, hv, hs, hmv,
                  stopAudioRun_eq, classifyError_movie] at hm
      · constructor
        · rintro (⟨e, he⟩ | ⟨e, he⟩) <;> exact absurd he (by simp)
        · intro m _
          exact ⟨⟨u, rfl⟩, ⟨b, rfl⟩⟩

/-- Witness for C1 at a run whose speech request fails. -/
theorem c1_all_or_nothing_join_witness :
    (generateMovie sampleState { sampleBackend with speechBase64 := none }).1.movie =
      none ∧
    (generateMovie sampleState { sampleBackend with speechBase64 := none }).1.status.step =
      Step.error :=
  have h := (c1_all_or_nothing_join sampleState
    { sampleBackend with speechBase64 := none } (by decide)).1
    (Or.inr ⟨"No audio data returned from TTS model.", rfl⟩)
  ⟨h.1, h.2.1⟩

/-- C5: starting a new generation over an existing Movie revokes that
video handle of that Movie exactly once, as the very first effect of the run —
before any backend call — and the tracked live audio handle is stopped
(cleared). -/
theorem c5_revoke_exactly_once (st : ComponentState) (be : Backend)
    (m : MovieData) (hmovie : st.movie = some m)
    (hidea : jsTrim st.idea ≠ "") :
    (∃ tail, (generateMovie st be).2 =
        Effect.revokeObjectURL m.videoUrl :: tail ∧
        Effect.revokeObjectURL m.videoUrl ∉ tail) ∧
    (generateMovie st be).2.count (Effect.revokeObjectURL m.videoUrl) = 1 ∧
    (generateMovie st be).1.audioSourceRef = none := by
  rcases hsc : be.scriptCall with e | resp
  · simp [generateMovie, hidea, generateScript_error, hsc, hmovie,
          stopAudioRun_eq, classifyError_audioSourceRef, List.count_cons]
  · rcases hv : generateVideo be.video with ev | u
    · rcases hs : generateSpeech be.speechBase64 be.speechDecode with es | b <;>
        simp [generateMovie, hidea, generateScript_ok, hsc, hv, hs, hmovie,
              stopAudioRun_eq, classifyError_audioSourceRef, List.count_cons]
    · rcases hs : generateSpeech be.speechBase64 be.speechDecode with es | b <;>
        simp [generateMovie, hidea, generateScript_ok, hsc, hv, hs, hmovie,
              stopAudioRun_eq, classifyError_audioSourceRef, List.count_cons]

/-- Witness for C5: the sample run over an existing Movie revokes exactly
the handle of exactly that Movie exactly once. -/
theorem c5_revoke_exactly_once_witness :
    (generateMovie { sampleState with movie := some sampleMovie }
        sampleBackend).2.count
      (Effect.revokeObjectURL sampleMovie.videoUrl) = 1 :=
  (c5_revoke_exactly_once { sampleState with movie := some sampleMovie }
    sampleBackend sampleMovie rfl (by decide)).2.1

/-- A state holding a previous Movie with mute engaged. -/
def mutedState : ComponentState :=
  { sampleState with movie := some sampleMovie, isMuted := true }

/-- A backend whose TTS call returns no audio data while the script and
video calls succeed. -/
def speechFailBackend : Backend :=
  { sampleBackend with speechBase64 := none }

/-- C2 counterexample: a generation failure whose message is the empty
string carries no authorization marker, yet the surfaced error is the
fallback text rather than the raw (empty) message. -/
theorem c2_empty_message_counterexample :
    isAuthError "" = false ∧
    (generateMovie sampleState { sampleBackend with scriptCall := .error "" }).1.status.error =
      some "An unexpected error occurred." ∧
    ¬ (generateMovie sampleState { sampleBackend with scriptCall := .error "" }).1.status.error =
      some "" := by
  decide

/-- C2 amended: a failure message with an authorization marker yields the
credential-re-selection error and revokes apiKeyReady; a non-empty message
without a marker is surfaced raw with apiKeyReady unchanged; an empty
message is replaced by the fallback text (not surfaced raw), with
apiKeyReady unchanged. -/
theorem c2_error_classification_amended (msg : String) (st : ComponentState) :
    (isAuthError msg = true → msg ≠ "" →
      (classifyError msg st).status =
        { step := .error, message := none,
          error := some "API Key Error. Please re-select your paid API key." } ∧
      (classifyError msg st).apiKeyReady = false) ∧
    (isAuthError msg = false → msg ≠ "" →
      (classifyError msg st).status =
        { step := .error, message := none, error := some msg } ∧
      (classifyError msg st).apiKeyReady = st.apiKeyReady) ∧
    (msg = "" →
      (classifyError msg st).status =
        { step := .error, message := none,
          error := some "An unexpected error occurred." } ∧
      (classifyError msg st).apiKeyReady = st.apiKeyReady) := by
  by_cases hmsg : msg = ""
  · subst hmsg
    have hfb : isAuthError "An unexpected error occurred." = false := by decide
    refine ⟨fun _ hne => absurd rfl hne, fun _ hne => absurd rfl hne, fun _ => ?_⟩
    unfold classifyError
    simp [hfb]
  · refine ⟨?_, ?_, fun h => absurd h hmsg⟩ <;> intro hauth _ <;>
      unfold classifyError <;> simp [hmsg, hauth]

/-- Witness for the amended C2 at the marker-bearing message 403. -/
theorem c2_error_classification_amended_witness :
    (classifyError "403" sampleState).status =
      { step := .error, message := none,
        error := some "API Key Error. Please re-select your paid API key." } ∧
    (classifyError "403" sampleState).apiKeyReady = false :=
  (c2_error_classification_amended "403" sampleState).1 (by decide) (by decide)

/-- C3 counterexample: a successful regeneration replaces the Movie, yet
isMuted, previously true, stays true — the playback state does not reset to
both flags false when the Movie changes. -/
theorem c3_mute_not_reset_counterexample :
    (generateMovie mutedState sampleBackend).1.movie ≠ mutedState.movie ∧
    (generateMovie mutedState sampleBackend).1.isPlaying = false ∧
    (generateMovie mutedState sampleBackend).1.isMuted = true := by
  decide

/-- C3 amended: whenever a generation run replaces or clears the Movie,
isPlaying resets to false, but isMuted is left unchanged rather than being
reset. -/
theorem c3_playback_reset_amended (st : ComponentState) (be : Backend)
    (hidea : jsTrim st.idea ≠ "") :
    (generateMovie st be).1.isPlaying = false ∧
    (generateMovie st be).1.isMuted = st.isMuted := by
  rcases hsc : be.scriptCall with e | resp
  · rcases hmv : st.movie with _ | m0 <;>
      simp [generateMovie, hidea, generateScript_error, hsc, hmv,
            stopAudioRun_eq, classifyError_isPlaying, classifyError_isMuted]
  · rcases hv : generateVideo be.video with ev | u <;>
      rcases hs : generateSpeech be.speechBase64 be.speechDecode with es | b <;>
        rcases hmv : st.movie with _ | m0 <;>
          simp [generateMovie, hidea, generateScript_ok, hsc, hv, hs, hmv,
                stopAudioRun_eq, classifyError_isPlaying, classifyError_isMuted]

/-- Witness for the amended C3 at the muted sample state. -/
theorem c3_playback_reset_amended_witness :
    (generateMovie mutedState sampleBackend).1.isPlaying = false ∧
    (generateMovie mutedState sampleBackend).1.isMuted = mutedState.isMuted :=
  c3_playback_reset_amended mutedState sampleBackend (by decide)

/-- C4 counterexample: a concrete run in which speech synthesis fails while
script and video generation succeed exposes no Movie at all (the movie
state is null and the status is the error step) — so no Movie with an
absent audioBuffer is ever exposed in that scenario. -/
theorem c4_no_movie_on_speech_failure_counterexample :
    generateSpeech speechFailBackend.speechBase64 speechFailBackend.speechDecode =
      .error "No audio data returned from TTS model." ∧
    generateVideo speechFailBackend.video = .ok "blob:new-video" ∧
    generateScript speechFailBackend.scriptCall =
      .ok "A cat cruises down the boardwalk, tail high." ∧
    (generateMovie sampleState speechFailBackend).1.movie = none ∧
    (generateMovie sampleState speechFailBackend).1.status.step = Step.error := by
  refine ⟨rfl, rfl, rfl, by decide, by decide⟩

/-- C4 amended: whenever speech synthesis fails, the run exposes no Movie
at all and ends in the error step; and any Movie a run does assemble
carries a present (non-null) audioBuffer. -/
theorem c4_speech_failure_amended (st : ComponentState) (be : Backend)
    (hidea : jsTrim st.idea ≠ "") :
    ((∃ e, generateSpeech be.speechBase64 be.speechDecode = .error e) →
      (generateMovie st be).1.movie = none ∧
      (generateMovie st be).1.status.step = Step.error) ∧
    (∀ m, (generateMovie st be).1.movie = some m →
      m.audioBuffer.isSome = true) := by
  constructor
  · intro he
    rcases hsc : be.scriptCall with e2 | resp
    · rcases hmv : st.movie with _ | m0 <;>
        simp [generateMovie, hidea, generateScript_error, hsc, hmv,
              stopAudioRun_eq, classifyError_movie, classifyError_step]
    · rcases hv : generateVideo be.video with ev | u <;>
        rcases hs : generateSpeech be.speechBase64 be.speechDecode with es | b
      · rcases hmv : st.movie with _ | m0 <;>
          simp [generateMovie, hidea, generateScript_ok, hsc, hv, hs, hmv,
                stopAudioRun_eq, classifyError_movie, classifyError_step]
      · rcases hmv : st.movie with _ | m0 <;>
          simp [generateMovie, hidea, generateScript_ok, hsc, hv, hs, hmv,
                stopAudioRun_eq, classifyError_movie, classifyError_step]
      · rcases hmv : st.movie with _ | m0 <;>
          simp [generateMovie, hidea, generateScript_ok, hsc, hv, hs, hmv,
                stopAudioRun_eq, classifyError_movie, classifyError_step]
      · obtain ⟨e, he⟩ := he
        rw [hs] at he
        exact absurd he (by simp)
  · intro m hm
    rcases hsc : be.scriptCall with e | resp
    · rcases hmv : st.movie with _ | m0 <;>
        simp [generateMovie, hidea, generateScript_error, hsc, hmv,
              stopAudioRun_eq, classifyError_movie] at hm
    · rcases hv : generateVideo be.video with ev | u
      · rcases hmv : st.movie with _ | m0 <;>
          simp [generateMovie, hidea, generateScript_ok, hsc, hv, hmv,
                stopAudioRun_eq, classifyError_movie] at hm
      · rcases hs : generateSpeech be.speechBase64 be.speechDecode with es | b
        · rcases hmv : st.movie with _ | m0 <;>
            simp [generateMovie, hidea, generateScript_ok, hsc, hv, hs, hmv,
                  stopAudioRun_eq, classifyError_movie] at hm
        · rw [generateMovie_success_movie st be hidea resp u b hsc hv hs] at hm
          rw [← Option.some.inj hm]
          rfl

/-- Witness for the amended C4 at the speech-failing sample run. -/
theorem c4_speech_failure_amended_witness :
    (generateMovie sampleState speechFailBackend).1.movie = none ∧
    (generateMovie sampleState speechFailBackend).1.status.step = Step.error :=
  (c4_speech_failure_amended sampleState speechFailBackend (by decide)).1
    ⟨"No audio data returned from TTS model.", rfl⟩

end CineGen
